import Mathlib

/-!
Shallow embedding of the KECC-style IR interpreter (`src/ir/interp.rs`).

Modelling conventions:
* Rust `u128` values are `Nat`s; `u128` arithmetic is taken modulo `2 ^ 128`
  (release-mode wrapping semantics), written explicitly as `% U128_MOD`.
* Rust `f64` payloads are modelled opaquely as their bit pattern (`Nat`);
  no claim in this development computes on a float payload.
* Fallible code is modelled in `Except Abort`, where `Abort.error`
  corresponds to `Err(InterpreterError)` and `Abort.panic` corresponds to an
  uncatchable Rust abort (`panic!`, `assert!`, `todo!`, `.expect`, `.unwrap`).
* `HashMap`s keyed by register id / names are modelled as functions to
  `Option` (for the register map, global map) or association lists (for the
  declaration map and the block map), with lookup being the first match.
-/

/-- `usize`-typed identifier of a basic block (`BlockId` in `ir/mod.rs`). -/
abbrev BlockId := Nat

/-- The Rust `u128` modulus: `u128` arithmetic wraps modulo this. -/
def U128_MOD : Nat := 2 ^ 128

/-- Program counter: current block id plus instruction index (`Pc`). -/
structure Pc where
  bid : BlockId
  iid : Nat
deriving DecidableEq, Repr

/-- `Pc::new`: start of block `bid`. -/
def Pc.new (bid : BlockId) : Pc := ⟨bid, 0⟩

/-- `Pc::increment`: advance the instruction index by one. -/
def Pc.increment (pc : Pc) : Pc := ⟨pc.bid, pc.iid + 1⟩

/-- Register identifiers (`RegisterId` in `ir/mod.rs`): function-local
allocation slots (`RegisterId::local`, here `loc`), block-argument registers
(`RegisterId::arg`) and per-instruction temporaries (`RegisterId::temp`). -/
inductive RegisterId where
  | loc (name : String) (id : Nat)
  | arg (bid : BlockId) (id : Nat)
  | temp (bid : BlockId) (iid : Nat)
deriving DecidableEq, Repr

/-- Runtime values (`enum Value` in `interp.rs`).  The float payload is an
opaque bit pattern; derived equality on it is therefore bitwise, matching the
derived `PartialEq` except on NaN and negative zero, which no claim
exercises. -/
inductive Value where
  | unit
  | int (value : Nat) (width : Nat) (is_signed : Bool)
  | float (value : Nat) (width : Nat)
  | pointer (bid : Option Nat) (offset : Nat)
deriving DecidableEq, Repr

/-- `Value::get_int`. -/
def Value.get_int : Value → Option (Nat × Nat × Bool)
  | .int v w s => some (v, w, s)
  | _ => none

/-- `Value::get_pointer`. -/
def Value.get_pointer : Value → Option (Option Nat × Nat)
  | .pointer bid offset => some (bid, offset)
  | _ => none

/-- `Value::nullptr`. -/
def Value.nullptr : Value := .pointer none 0

/-- The `lang_c::ast::BinaryOperator` enum (external crate). -/
inductive BinaryOperator where
  | Index | Multiply | Divide | Modulo | Plus | Minus
  | ShiftLeft | ShiftRight
  | Less | Greater | LessOrEqual | GreaterOrEqual | Equals | NotEquals
  | BitwiseAnd | BitwiseXor | BitwiseOr | LogicalAnd | LogicalOr
  | Assign | AssignMultiply | AssignDivide | AssignModulo | AssignPlus
  | AssignMinus | AssignShiftLeft | AssignShiftRight | AssignBitwiseAnd
  | AssignBitwiseXor | AssignBitwiseOr
deriving DecidableEq, Repr

/-- The `lang_c::ast::UnaryOperator` enum (external crate). -/
inductive UnaryOperator where
  | PostIncrement | PostDecrement | PreIncrement | PreDecrement
  | Address | Indirection | Plus | Minus | Complement | Negate
deriving DecidableEq, Repr

/-- Result of a calculator function (`Result<Value, ()>` in Rust, plus the
possibility of an uncatchable abort from `assert!`/`todo!`). -/
inductive CalcResult where
  | ok (v : Value)
  | err
  | panic (msg : String)
deriving DecidableEq, Repr

/-- `calculator::calculate_binary_operator_expression`.  Both operands must
be `Int` of identical width and signedness (asserted).  `u128` arithmetic
wraps modulo `2 ^ 128`; note the source does NOT reduce results modulo
`2 ^ width`. -/
def calculate_binary_operator_expression
    (op : BinaryOperator) (lhs rhs : Value) : CalcResult :=
  match lhs, rhs with
  | .int l lw ls, .int r rw rs =>
    if lw ≠ rw then .panic ("assertion failed: lhs_w == rhs_w")
    else if ls ≠ rs then .panic ("assertion failed: lhs_s == rhs_s")
    else
      match op with
      | .Plus => .ok (.int ((l + r) % U128_MOD) lw ls)
      | .Minus => .ok (.int ((U128_MOD + l - r) % U128_MOD) lw ls)
      | .Multiply => .ok (.int ((l * r) % U128_MOD) lw ls)
      | .Equals => .ok (.int (if l = r then 1 else 0) 1 ls)
      | .NotEquals => .ok (.int (if l ≠ r then 1 else 0) 1 ls)
      | .Less => .ok (.int (if l < r then 1 else 0) 1 ls)
      | .GreaterOrEqual => .ok (.int (if l ≥ r then 1 else 0) 1 ls)
      | _ => .panic ("not yet implemented: will be covered all operator")
  | _, _ => .panic ("not yet implemented")

/-- `calculator::calculate_unary_operator_expression`. -/
def calculate_unary_operator_expression
    (op : UnaryOperator) (operand : Value) : CalcResult :=
  match op, operand with
  | .Plus, .int v w s => .ok (.int v w s)
  | .Minus, .int v w s =>
    if !s then .panic ("assertion failed: is_signed")
    else .ok (.int ((U128_MOD - v) % U128_MOD) w s)
  | .Negate, .int v w s =>
    if w ≠ 1 then .panic ("assertion failed: width == 1")
    else .ok (.int (if v = 0 then 1 else 0) w s)
  | _, _ => .panic ("not yet implemented")

/-- IR dtypes (`Dtype` in `ir/mod.rs`, consumed by the interpreter). -/
inductive Dtype where
  | unit
  | int (width : Nat) (is_signed : Bool)
  | float (width : Nat)
  | pointer (inner : Dtype)
  | function (ret : Dtype) (params : List Dtype)

mutual

/-- Structural equality on dtypes (the derived `PartialEq` of `Dtype`). -/
def Dtype.beq : Dtype → Dtype → Bool
  | .unit, .unit => true
  | .int w1 s1, .int w2 s2 => w1 == w2 && s1 == s2
  | .float w1, .float w2 => w1 == w2
  | .pointer i1, .pointer i2 => Dtype.beq i1 i2
  | .function r1 p1, .function r2 p2 => Dtype.beq r1 r2 && Dtype.beqList p1 p2
  | _, _ => false

/-- Pointwise `Dtype.beq` on parameter lists. -/
def Dtype.beqList : List Dtype → List Dtype → Bool
  | [], [] => true
  | a :: as, b :: bs => Dtype.beq a b && Dtype.beqList as bs
  | _, _ => false

end

/-- `calculator::calculate_typecast`: `Int → Int` reinterprets the stored
magnitude at the new width/signedness, `Float → Float` rewidens; every other
combination hits `todo!`. -/
def calculate_typecast (value : Value) (dtype : Dtype) : CalcResult :=
  match value, dtype with
  | .int v _ _, .int w s => .ok (.int v w s)
  | .float v _, .float w => .ok (.float v w)
  | _, _ => .panic ("not yet implemented: calculate_typecast")

example : calculate_binary_operator_expression .Plus
    (.int 255 8 false) (.int 1 8 false) = .ok (.int 256 8 false) := by decide

example : calculate_binary_operator_expression .Modulo
    (.int 1 8 false) (.int 1 8 false)
      = .panic ("not yet implemented: will be covered all operator") := by decide

/-- Modelled from the spec: `Dtype::is_compatible` lives in `ir/mod.rs`,
which is not part of the interpreter source file; the spec only requires "a
compatibility predicate between an operand's Dtype and an expected Dtype",
modelled here as structural equality (which is the strictest predicate
satisfying the spec and is reflexive, all any claim needs). -/
def Dtype.is_compatible (a b : Dtype) : Bool := Dtype.beq a b

/-- Modelled from the spec: `Dtype::get_function_inner` (in `ir/mod.rs`)
returns the signature payload iff the dtype is a function type. -/
def Dtype.get_function_inner : Dtype → Option (Dtype × List Dtype)
  | .function ret params => some (ret, params)
  | _ => none

/-- IR constants (`Constant` in `ir/mod.rs`), as consumed by
`interp_constant`. -/
inductive Constant where
  | unit
  | int (value : Nat) (width : Nat) (is_signed : Bool)
  | float (value : Nat) (width : Nat)
  | global_variable (name : String) (dtype : Dtype)

/-- Modelled from the spec: the dtype carried by a constant (`ir/mod.rs`);
a global-variable reference denotes a pointer to its declared dtype. -/
def Constant.dtype : Constant → Dtype
  | .unit => .unit
  | .int _ w s => .int w s
  | .float _ w => .float w
  | .global_variable _ d => .pointer d

/-- IR operands (`Operand` in `ir/mod.rs`): a constant or a register
reference carrying its dtype. -/
inductive Operand where
  | constant (c : Constant)
  | register (rid : RegisterId) (dtype : Dtype)

/-- Modelled from the spec: `Operand::dtype` (in `ir/mod.rs`). -/
def Operand.dtype : Operand → Dtype
  | .constant c => c.dtype
  | .register _ d => d

/-- IR instructions (`Instruction` in `ir/mod.rs`), with exactly the fields
the interpreter destructures. -/
inductive Instruction where
  | binOp (op : BinaryOperator) (lhs rhs : Operand) (dtype : Dtype)
  | unaryOp (op : UnaryOperator) (operand : Operand) (dtype : Dtype)
  | store (ptr value : Operand)
  | load (ptr : Operand) (dtype : Dtype)
  | call (callee : Operand) (args : List Operand) (return_type : Dtype)
  | typeCast (value : Operand) (target_dtype : Dtype)

/-- Jump argument (`JumpArg` in `ir/mod.rs`): target block plus the operands
bound to its phinode registers. -/
structure JumpArg where
  bid : BlockId
  args : List Operand

/-- Block exits (`BlockExit` in `ir/mod.rs`). -/
inductive BlockExit where
  | jump (arg : JumpArg)
  | conditionalJump (condition : Operand) (arg_then arg_else : JumpArg)
  | switch (value : Operand) (default : JumpArg)
      (cases : List (Constant × JumpArg))
  | ret (value : Operand)
  | unreachable

/-- A basic block (`Block` in `ir/mod.rs`): phinode dtypes, instruction
list, and exactly one exit. -/
structure Block where
  phinodes : List Dtype
  instructions : List Instruction
  exit : BlockExit

/-- `FunctionSignature` in `ir/mod.rs`. -/
structure FunctionSignature where
  ret : Dtype
  params : List Dtype

/-- `FunctionDefinition` in `ir/mod.rs`: local-allocation dtypes, the block
map (modelled as an association list; lookup is first match) and the entry
block id. -/
structure FunctionDefinition where
  allocations : List Dtype
  blocks : List (BlockId × Block)
  bid_init : BlockId

/-- Lookup in the block map (`HashMap<BlockId, Block>` access). -/
def FunctionDefinition.lookupBlock (f : FunctionDefinition) (bid : BlockId) :
    Option Block :=
  (f.blocks.find? (fun p => p.1 == bid)).map Prod.snd

/-- Declarations (`Declaration` in `ir/mod.rs`): a global variable with an
optional initializer constant, or a function with an optional body. -/
inductive Declaration where
  | var (dtype : Dtype) (initializer : Option Constant)
  | function (signature : FunctionSignature)
      (definition : Option FunctionDefinition)

/-- Modelled from the spec: `Declaration::dtype` (in `ir/mod.rs`). -/
def Declaration.dtype : Declaration → Dtype
  | .var d _ => d
  | .function sig _ => .function sig.ret sig.params

/-- `Declaration::get_function`: the signature and optional body iff the
declaration is a function. -/
def Declaration.get_function :
    Declaration → Option (FunctionSignature × Option FunctionDefinition)
  | .var _ _ => none
  | .function sig d => some (sig, d)

/-- The program (`TranslationUnit` in `ir/mod.rs`): a name-keyed collection
of declarations, modelled as an association list; both the iteration order
of `alloc_global_variables` and name lookup follow the list. -/
structure TranslationUnit where
  decls : List (String × Declaration)

/-- Lookup of a declaration by name (`decls.get(name)`). -/
def TranslationUnit.lookupDecl (tu : TranslationUnit) (name : String) :
    Option Declaration :=
  (tu.decls.find? (fun p => p.1 == name)).map Prod.snd

/-- `struct RegisterMap`: per-frame map from register id to its last-written
value, modelled as a function; `none` means "never written". -/
def RegisterMap := RegisterId → Option Value

/-- The empty register map (`Default` for `RegisterMap`). -/
def RegisterMap.empty : RegisterMap := fun _ => none

/-- `RegisterMap::read`; `none` models the "must be assigned before it can
be used" `expect` panic. -/
def RegisterMap.read (m : RegisterMap) (rid : RegisterId) : Option Value :=
  m rid

/-- `RegisterMap::write`: unconditional upsert (discarding the old value). -/
def RegisterMap.write (m : RegisterMap) (rid : RegisterId) (v : Value) :
    RegisterMap :=
  fun r => if r = rid then some v else m r

/-- Raw `HashMap::insert` on the register map (used by `interp_jump`): the
new map together with the value previously stored under `rid`, if any. -/
def RegisterMap.insert (m : RegisterMap) (rid : RegisterId) (v : Value) :
    Option Value × RegisterMap :=
  (m rid, m.write rid v)

/-- `struct GlobalMap`: the bijection between global names and memory block
ids, modelled as a pair of partial functions. -/
structure GlobalMap where
  var_to_bid : String → Option Nat
  bid_to_var : Nat → Option String

/-- The empty global map (`Default` for `GlobalMap`). -/
def GlobalMap.empty : GlobalMap := ⟨fun _ => none, fun _ => none⟩

/-- `GlobalMap::insert`; `none` models the "should be unique" panics when
either direction is already present. -/
def GlobalMap.insert (g : GlobalMap) (var : String) (bid : Nat) :
    Option GlobalMap :=
  if (g.var_to_bid var).isSome then none
  else if (g.bid_to_var bid).isSome then none
  else some
    ⟨fun v => if v = var then some bid else g.var_to_bid v,
     fun b => if b = bid then some var else g.bid_to_var b⟩

/-- `GlobalMap::get_bid`. -/
def GlobalMap.get_bid (g : GlobalMap) (var : String) : Option Nat :=
  g.var_to_bid var

/-- `GlobalMap::get_var`. -/
def GlobalMap.get_var (g : GlobalMap) (bid : Nat) : Option String :=
  g.bid_to_var bid

/-- `struct Memory`: an append-only list of memory blocks, each a list of
values. -/
structure Memory where
  inner : List (List Value)

/-- `Value::default_from_dtype`; `none` models the panic on function
dtypes. -/
def Value.default_from_dtype : Dtype → Option Value
  | .unit => some .unit
  | .int w s => some (.int 0 w s)
  | .float w => some (.float 0 w)
  | .pointer _ => some (.pointer none 0)
  | .function _ _ => none

/-- `Memory::alloc`: append one block (a single default-initialized slot for
scalar dtypes, an empty block for function dtypes) and return its bid.  The
`getD` default is unreachable: `default_from_dtype` is `some` on every
non-function dtype. -/
def Memory.alloc (m : Memory) (dtype : Dtype) : Nat × Memory :=
  let memory_block : List Value :=
    match dtype with
    | .function _ _ => []
    | d => [(Value.default_from_dtype d).getD Value.unit]
  (m.inner.length, ⟨m.inner ++ [memory_block]⟩)

/-- `Memory::load`; `none` models the out-of-bounds indexing panic. -/
def Memory.load (m : Memory) (bid offset : Nat) : Option Value :=
  (m.inner.get? bid).bind fun block => block.get? offset

/-- `Memory::store`; `none` models the out-of-bounds indexing panic. -/
def Memory.store (m : Memory) (bid offset : Nat) (value : Value) :
    Option Memory :=
  match m.inner.get? bid with
  | none => none
  | some block =>
      if offset < block.length then
        some ⟨m.inner.set bid (block.set offset value)⟩
      else none

/-- `enum InterpreterError`. -/
inductive InterpreterError where
  | unreachable
  | noMainFunction
  | noFunctionDefinition (func_name : String)
  | misc (func_name : String) (pc : Pc) (msg : String)
deriving DecidableEq, Repr

/-- How a fallible interpreter operation can fail: a structured
`InterpreterError` (`Err` in Rust) or an uncatchable abort
(`panic!`/`assert!`/`todo!`/`expect`/`unwrap`). -/
inductive Abort where
  | error (e : InterpreterError)
  | panic (msg : String)
deriving DecidableEq, Repr

/-- Models Rust `Option::expect(msg)`: a `none` becomes a panic abort. -/
def expect {α : Type} (o : Option α) (msg : String) : Except Abort α :=
  match o with
  | some a => .ok a
  | none => .error (.panic msg)

/-- `struct StackFrame`: one activation record. -/
structure StackFrame where
  pc : Pc
  registers : RegisterMap
  func_name : String
  func_def : FunctionDefinition

/-- `StackFrame::new`. -/
def StackFrame.new (bid : BlockId) (func_name : String)
    (func_def : FunctionDefinition) : StackFrame :=
  ⟨Pc.new bid, RegisterMap.empty, func_name, func_def⟩

/-- `struct State`: the execution state. -/
structure State where
  global_map : GlobalMap
  stack_frame : StackFrame
  stack : List StackFrame
  memory : Memory
  ir : TranslationUnit

/-- `State::interp_constant`: a constant evaluates to its literal value; a
global-variable reference resolves through the global map to a pointer
(panicking, per the source `expect`, if the name is unknown). -/
def State.interp_constant (s : State) (c : Constant) : Except Abort Value :=
  match c with
  | .unit => .ok .unit
  | .int v w sg => .ok (.int v w sg)
  | .float v w => .ok (.float v w)
  | .global_variable name _ => do
      let bid ← expect (s.global_map.get_bid name)
        ("The name matching `bid` must exist.")
      .ok (.pointer (some bid) 0)

/-- `State::interp_operand`: constants evaluate directly; register operands
read the current frame (panicking on a never-written register). -/
def State.interp_operand (s : State) (operand : Operand) : Except Abort Value :=
  match operand with
  | .constant c => s.interp_constant c
  | .register rid _ =>
      expect (s.stack_frame.registers.read rid)
        ("`rid` must be assigned before it can be used")

/-- `State::interp_ptr`: resolve a value to `(bid, offset)` for memory
access; a non-pointer or a pointer without a block id is a `Misc` error. -/
def State.interp_ptr (s : State) (pointer : Value) :
    Except Abort (Nat × Nat) := do
  let (bid, offset) ← match pointer.get_pointer with
    | some p => Except.ok p
    | none => Except.error (.error (.misc s.stack_frame.func_name
        s.stack_frame.pc ("Accessing memory with non-pointer")))
  let bid ← match bid with
    | some b => Except.ok b
    | none => Except.error (.error (.misc s.stack_frame.func_name
        s.stack_frame.pc ("Accessing memory with constant pointer")))
  .ok (bid, offset)

/-- The evaluation loop inside `State::interp_jump`: for each argument in
order, evaluate it in the current frame (the source `.unwrap()`s the
result) and `HashMap::insert` it into the target block argument register,
then `.unwrap()` the returned previous value — panicking when the register
had never been assigned. -/
def State.bindJumpArgs (s : State) (bid : BlockId) :
    List Operand → Nat → Except Abort State
  | [], _ => .ok s
  | a :: rest, i => do
      let v ← s.interp_operand a
      let (old, regs) :=
        s.stack_frame.registers.insert (RegisterId.arg bid i) v
      match old with
      | none => Except.error (.panic
          ("called `Option::unwrap()` on a `None` value"))
      | some _ =>
          State.bindJumpArgs
            { s with stack_frame := { s.stack_frame with registers := regs } }
            bid rest (i + 1)

/-- `State::interp_jump`: look up the target block (panic if absent), assert
the argument count matches the phinode count and each argument dtype is
compatible, bind the arguments, and set the program counter to the start of
the target block. -/
def State.interp_jump (s : State) (arg : JumpArg) :
    Except Abort (Option Value × State) := do
  let block ← expect (s.stack_frame.func_def.lookupBlock arg.bid)
    ("block matched with `arg.bid` must be exist")
  if arg.args.length ≠ block.phinodes.length then
    Except.error (.panic ("assertion failed: arg.args.len() == block.phinodes.len()"))
  else if !((arg.args.zip block.phinodes).all
      (fun p => Dtype.is_compatible p.1.dtype p.2)) then
    Except.error (.panic ("assertion failed: a.dtype().is_compatible(d)"))
  else do
    let s ← s.bindJumpArgs arg.bid arg.args 0
    .ok (none, { s with stack_frame :=
      { s.stack_frame with pc := Pc.new arg.bid } })

/-- The `cases.iter().find(..)` scan of `Switch`: evaluate each case
constant in order (any panic inside the scan propagates) and return the
first case whose constant equals the scrutinee, or the default target. -/
def State.switchCase (s : State) (value : Value) :
    List (Constant × JumpArg) → JumpArg → Except Abort JumpArg
  | [], dflt => .ok dflt
  | (c, arg) :: rest, dflt => do
      let cv ← s.interp_constant c
      if value = cv then .ok arg else State.switchCase s value rest dflt

/-- `State::interp_block_exit`: the five block-exit outcomes. -/
def State.interp_block_exit (s : State) (block_exit : BlockExit) :
    Except Abort (Option Value × State) :=
  match block_exit with
  | .jump arg => s.interp_jump arg
  | .conditionalJump condition arg_then arg_else => do
      let value ← s.interp_operand condition
      let (v, width, _) ← expect value.get_int
        ("`condition` must be `Value::Int`")
      if width ≠ 1 then Except.error (.panic ("assertion failed: width == 1"))
      else s.interp_jump (if v = 1 then arg_then else arg_else)
  | .switch value dflt cases => do
      let v ← s.interp_operand value
      let arg ← s.switchCase v cases dflt
      s.interp_jump arg
  | .ret value => do
      let v ← s.interp_operand value
      .ok (some v, s)
  | .unreachable => Except.error (.error .unreachable)

/-- `State::interp_args`: panic unless the argument count equals the
parameter count and each argument dtype is compatible with its parameter;
then evaluate the arguments in the caller's frame, in order. -/
def State.interp_args (s : State) (signature : FunctionSignature)
    (args : List Operand) : Except Abort (List Value) :=
  if !(args.length == signature.params.length
      && (args.zip signature.params).all
           (fun p => Dtype.is_compatible p.1.dtype p.2)) then
    Except.error (.panic ("dtype of args and params must be compatible"))
  else
    args.mapM s.interp_operand

/-- The loop of `State::write_args`: bind the supplied values positionally
into the entry block's argument registers (no validation of any kind). -/
def writeArgsAux (regs : RegisterMap) (bid_init : BlockId) :
    List Value → Nat → RegisterMap
  | [], _ => regs
  | v :: rest, i =>
      writeArgsAux (regs.write (RegisterId.arg bid_init i) v) bid_init rest
        (i + 1)

/-- `State::write_args` (always succeeds; the source returns `Ok(())`
unconditionally). -/
def State.write_args (s : State) (bid_init : BlockId) (args : List Value) :
    State :=
  { s with stack_frame := { s.stack_frame with
      registers := writeArgsAux s.stack_frame.registers bid_init args 0 } }

/-- The loop of `State::alloc_local_variables`: allocate one memory block
per local allocation and bind a pointer to it in a dedicated local
register. -/
def allocLocalsAux (s : State) : List Dtype → Nat → State
  | [], _ => s
  | d :: rest, id =>
      let (bid, mem) := s.memory.alloc d
      let regs := s.stack_frame.registers.write (RegisterId.loc "" id)
        (.pointer (some bid) 0)
      allocLocalsAux
        { s with memory := mem,
                 stack_frame := { s.stack_frame with registers := regs } }
        rest (id + 1)

/-- `State::alloc_local_variables` (always succeeds in the source). -/
def State.alloc_local_variables (s : State) : State :=
  allocLocalsAux s s.stack_frame.func_def.allocations 0

/-- The loop of `State::alloc_global_variables`: for each declaration,
allocate a block, register the name/bid pair in the global map (panic on
duplicates), and store the evaluated initializer of an initialized
variable. -/
def allocGlobalsAux (s : State) :
    List (String × Declaration) → Except Abort State
  | [] => .ok s
  | (name, decl) :: rest => do
      let (bid, mem) := s.memory.alloc decl.dtype
      let gm ← match s.global_map.insert name bid with
        | some g => Except.ok g
        | none => Except.error (.panic ("variable name should be unique in IR"))
      let s1 : State := { s with memory := mem, global_map := gm }
      let s2 ← match decl with
        | .var dtype initializer =>
            if dtype.get_function_inner.isSome then
              Except.error (.panic ("function variable does not exist"))
            else
              match initializer with
              | some constant => do
                  let value ← s1.interp_constant constant
                  match s1.memory.store bid 0 value with
                  | some mem2 => Except.ok { s1 with memory := mem2 }
                  | none => Except.error (.panic ("index out of bounds"))
              | none => Except.ok s1
        | .function _ _ => Except.ok s1
      allocGlobalsAux s2 rest

/-- `State::alloc_global_variables`. -/
def State.alloc_global_variables (s : State) : Except Abort State :=
  allocGlobalsAux s s.ir.decls

/-- `State::new`: resolve `main` (`NoMainFunction` if absent or not a
function, `NoFunctionDefinition` if it has no body), then allocate globals,
bind the supplied arguments into `main`'s entry block and allocate `main`'s
locals. -/
def State.new (ir : TranslationUnit) (args : List Value) :
    Except Abort State := do
  let func_name := "main"
  let func ← match ir.lookupDecl func_name with
    | some f => Except.ok f
    | none => Except.error (.error .noMainFunction)
  let (_, fd) ← match func.get_function with
    | some p => Except.ok p
    | none => Except.error (.error .noMainFunction)
  let func_def ← match fd with
    | some f => Except.ok f
    | none => Except.error (.error (.noFunctionDefinition func_name))
  let state : State :=
    { global_map := GlobalMap.empty,
      stack_frame := StackFrame.new func_def.bid_init func_name func_def,
      stack := [],
      memory := ⟨[]⟩,
      ir := ir }
  let state ← state.alloc_global_variables
  let state := state.write_args func_def.bid_init args
  let state := state.alloc_local_variables
  .ok state

/-- The shared tail of `interp_instruction` for non-`Call` instructions:
write the result into the fresh temp register keyed by the current program
counter and advance the instruction index by one. -/
def State.finishInstruction (s : State) (result : Value) : State :=
  { s with stack_frame := { s.stack_frame with
      registers := s.stack_frame.registers.write
        (RegisterId.temp s.stack_frame.pc.bid s.stack_frame.pc.iid) result,
      pc := s.stack_frame.pc.increment } }

/-- Wrap a calculator outcome the way `interp_instruction` does: `Err(())`
becomes a `Misc` diagnostic naming the current function and program
counter; calculator panics propagate as panics. -/
def State.liftCalc (s : State) (r : CalcResult) (msg : String) :
    Except Abort Value :=
  match r with
  | .ok v => .ok v
  | .err => .error (.error (.misc s.stack_frame.func_name s.stack_frame.pc msg))
  | .panic m => .error (.panic m)

/-- `State::interp_instruction`. -/
def State.interp_instruction (s : State) (instruction : Instruction) :
    Except Abort State :=
  match instruction with
  | .binOp op lhs rhs _ => do
      let l ← s.interp_operand lhs
      let r ← s.interp_operand rhs
      let result ← s.liftCalc (calculate_binary_operator_expression op l r)
        ("calculate_binary_operator_expression")
      .ok (s.finishInstruction result)
  | .unaryOp op operand _ => do
      let v ← s.interp_operand operand
      let result ← s.liftCalc (calculate_unary_operator_expression op v)
        ("calculate_unary_operator_expression")
      .ok (s.finishInstruction result)
  | .store ptr value => do
      let p ← s.interp_operand ptr
      let v ← s.interp_operand value
      let (bid, offset) ← s.interp_ptr p
      let mem ← expect (s.memory.store bid offset v) ("index out of bounds")
      .ok (State.finishInstruction { s with memory := mem } .unit)
  | .load ptr _ => do
      let p ← s.interp_operand ptr
      let (bid, offset) ← s.interp_ptr p
      let v ← expect (s.memory.load bid offset) ("index out of bounds")
      .ok (s.finishInstruction v)
  | .call callee args _ => do
      let ptr ← s.interp_operand callee
      let (bid, _) ← expect ptr.get_pointer ("`ptr` must be `Value::Pointer`")
      let bid ← expect bid ("pointer for global variable must have bid value")
      let callee_name ← expect (s.global_map.get_var bid)
        ("bid must have relation with global variable")
      let func ← expect (s.ir.lookupDecl callee_name)
        ("function must be declared before being called")
      let (func_signature, fd) ← expect func.get_function
        ("`func` must be function declaration")
      let func_def ← match fd with
        | some f => Except.ok f
        | none => Except.error (.error (.noFunctionDefinition callee_name))
      let argVals ← s.interp_args func_signature args
      let stack_frame := StackFrame.new func_def.bid_init callee_name func_def
      let s1 : State := { s with stack_frame := stack_frame,
                                 stack := s.stack_frame :: s.stack }
      let s2 := s1.write_args func_def.bid_init argVals
      let s3 := s2.alloc_local_variables
      .ok s3
  | .typeCast value target_dtype => do
      let v ← s.interp_operand value
      let result ← s.liftCalc (calculate_typecast v target_dtype)
        ("calculate_typecast")
      .ok (s.finishInstruction result)

/-- `State::step`: execute the instruction at the current program counter,
or the block exit once the block is exhausted; a `Return` value either pops
and restores the caller frame (binding the value into a fresh temp register
at the caller's program counter and advancing it by one) or, for the
outermost frame, is the final result. -/
def State.step (s : State) : Except Abort (Option Value × State) := do
  let block ← expect (s.stack_frame.func_def.lookupBlock s.stack_frame.pc.bid)
    ("block matched with `bid` must be exist")
  match block.instructions.get? s.stack_frame.pc.iid with
  | some instr => do
      let s1 ← s.interp_instruction instr
      .ok (none, s1)
  | none => do
      let (rv, s1) ← s.interp_block_exit block.exit
      match rv with
      | none => .ok (none, s1)
      | some return_value =>
          match s1.stack with
          | [] => .ok (some return_value, s1)
          | prev :: rest =>
              let s2 : State := { s1 with stack_frame := prev, stack := rest }
              let register := RegisterId.temp s2.stack_frame.pc.bid
                s2.stack_frame.pc.iid
              let s3 : State := { s2 with stack_frame :=
                { s2.stack_frame with
                    registers := s2.stack_frame.registers.write register
                      return_value,
                    pc := s2.stack_frame.pc.increment } }
              .ok (none, s3)

/-- Builds a register map from a list of bindings (later writes first). -/
def RegisterMap.ofList : List (RegisterId × Value) → RegisterMap
  | [] => RegisterMap.empty
  | (r, v) :: rest => (RegisterMap.ofList rest).write r v

/-- C1: the spec claims width-8 unsigned `255 + 1` evaluates to `0` (wrapping
modulo `2 ^ width`); the code adds the raw `u128` magnitudes without reducing
modulo `2 ^ width` and returns `256` still tagged with width 8, which is a
different `Value` than the claimed `0`. -/
theorem C1_add_does_not_wrap_at_width :
    calculate_binary_operator_expression .Plus (.int 255 8 false)
        (.int 1 8 false)
      = .ok (.int 256 8 false)
    ∧ Value.int 256 8 false ≠ Value.int 0 8 false := by
  exact ⟨by decide, by decide⟩

/-- C5 counterexample: an unsupported binary operator (Modulo) and an
unsupported typecast (pointer to int) do not produce a distinct recoverable
"operator not supported" outcome: they abort through `todo!`, an uncatchable
panic, and in particular are not the recoverable `Err` outcome. -/
theorem C5_counterexample_unsupported_aborts :
    calculate_binary_operator_expression .Modulo (.int 1 8 false)
        (.int 1 8 false)
      = .panic ("not yet implemented: will be covered all operator")
    ∧ calculate_binary_operator_expression .Modulo (.int 1 8 false)
        (.int 1 8 false) ≠ .err
    ∧ calculate_typecast (.pointer none 0) (.int 8 false)
      = .panic ("not yet implemented: calculate_typecast")
    ∧ calculate_typecast (.pointer none 0) (.int 8 false) ≠ .err := by
  exact ⟨by decide, by decide, by decide, by decide⟩

/-- C5 amended: for every binary operator outside the supported set applied
to equal-width, equal-signedness Int operands, and for every typecast of a
pointer value, the evaluator neither miscomputes a value nor returns the
recoverable `Err` outcome: it aborts with the not-yet-implemented (`todo!`)
panic. -/
theorem C5_amended_unsupported_panics
    (op : BinaryOperator) (l r w : Nat) (sg : Bool)
    (h1 : op ≠ .Plus) (h2 : op ≠ .Minus) (h3 : op ≠ .Multiply)
    (h4 : op ≠ .Equals) (h5 : op ≠ .NotEquals) (h6 : op ≠ .Less)
    (h7 : op ≠ .GreaterOrEqual) :
    calculate_binary_operator_expression op (.int l w sg) (.int r w sg)
        = .panic ("not yet implemented: will be covered all operator")
    ∧ (∀ (b : Option Nat) (o : Nat) (dt : Dtype),
        calculate_typecast (.pointer b o) dt
          = .panic ("not yet implemented: calculate_typecast"))
    ∧ (∀ (uop : UnaryOperator) (x u : Nat) (t : Bool),
        uop ≠ .Plus → uop ≠ .Minus → uop ≠ .Negate →
        calculate_unary_operator_expression uop (.int x u t)
          = .panic ("not yet implemented")) := by
  refine ⟨?_, ?_, ?_⟩
  · cases op <;> simp_all [calculate_binary_operator_expression]
  · intro b o dt
    cases dt <;> rfl
  · intro uop x u t hu1 hu2 hu3
    cases uop <;> simp_all [calculate_unary_operator_expression]

/-- C5 witness: the amended claim at the concrete operator Modulo. -/
theorem C5_amended_unsupported_panics_witness :
    calculate_binary_operator_expression .Modulo (.int 1 8 false)
        (.int 1 8 false)
      = .panic ("not yet implemented: will be covered all operator") :=
  (C5_amended_unsupported_panics .Modulo 1 1 8 false (by decide) (by decide)
    (by decide) (by decide) (by decide) (by decide) (by decide)).1

/-- A boolean-valued if-then-else over the naturals is 0 or 1. -/
theorem ite_zero_or_one (c : Prop) [Decidable c] :
    (if c then (1 : Nat) else 0) = 0 ∨ (if c then (1 : Nat) else 0) = 1 := by
  split <;> simp

/-- C6: each relational operator on equal-width, equal-signedness Int
operands returns an Int of width 1 whose value is 0 or 1 and whose
signedness equals the operands' signedness, regardless of the input
width. -/
theorem C6_relational_one_bit (a b w : Nat) (sg : Bool) :
    (∃ v, calculate_binary_operator_expression .Equals (.int a w sg)
        (.int b w sg) = .ok (.int v 1 sg) ∧ (v = 0 ∨ v = 1))
    ∧ (∃ v, calculate_binary_operator_expression .NotEquals (.int a w sg)
        (.int b w sg) = .ok (.int v 1 sg) ∧ (v = 0 ∨ v = 1))
    ∧ (∃ v, calculate_binary_operator_expression .Less (.int a w sg)
        (.int b w sg) = .ok (.int v 1 sg) ∧ (v = 0 ∨ v = 1))
    ∧ (∃ v, calculate_binary_operator_expression .GreaterOrEqual (.int a w sg)
        (.int b w sg) = .ok (.int v 1 sg) ∧ (v = 0 ∨ v = 1)) := by
  refine ⟨⟨if a = b then 1 else 0, ?_, ite_zero_or_one _⟩,
          ⟨if a ≠ b then 1 else 0, ?_, ite_zero_or_one _⟩,
          ⟨if a < b then 1 else 0, ?_, ite_zero_or_one _⟩,
          ⟨if a ≥ b then 1 else 0, ?_, ite_zero_or_one _⟩⟩ <;>
    simp [calculate_binary_operator_expression]

/-- C7: storing a value at an existing `(bid, offset)` and loading from the
same `(bid, offset)` with no intervening store returns the stored value
unchanged. -/
theorem C7_store_load_roundtrip (m : Memory) (bid offset : Nat) (v : Value)
    (block : List Value) (hb : m.inner.get? bid = some block)
    (ho : offset < block.length) :
    ∃ mem, m.store bid offset v = some mem ∧ mem.load bid offset = some v := by
  have hb2 : m.inner[bid]? = some block := by
    rw [← List.get?_eq_getElem?]
    exact hb
  obtain ⟨hbid, -⟩ := List.getElem?_eq_some.mp hb2
  refine ⟨⟨m.inner.set bid (block.set offset v)⟩, ?_, ?_⟩
  · simp [Memory.store, List.get?_eq_getElem?, hb2, ho]
  · simp [Memory.load, List.get?_eq_getElem?]
    rw [List.getElem?_set_eq_of_lt _ hbid]
    simp
    exact List.getElem?_set_eq_of_lt _ ho

/-- C7 witness: the round-trip at a concrete one-slot memory. -/
theorem C7_store_load_roundtrip_witness :
    ∃ mem, (Memory.mk [[Value.unit]]).store 0 0 (.int 7 32 true) = some mem
      ∧ mem.load 0 0 = some (.int 7 32 true) :=
  C7_store_load_roundtrip ⟨[[Value.unit]]⟩ 0 0 (.int 7 32 true) [Value.unit]
    rfl (by decide)

/-- A one-block function body for constructing concrete test states. -/
def trivialDef : FunctionDefinition :=
  ⟨[], [(0, ⟨[], [], .ret (.constant .unit)⟩)], 0⟩

/-- A register file with a null pointer in the temp register (0,0). -/
def regsNull : RegisterMap :=
  RegisterMap.ofList [(.temp 0 0, .pointer none 0)]

/-- Concrete state whose temp register (0,0) holds a null pointer. -/
def stateNull : State :=
  { global_map := GlobalMap.empty,
    stack_frame := ⟨⟨0, 1⟩, regsNull, "main", trivialDef⟩,
    stack := [],
    memory := ⟨[]⟩,
    ir := ⟨[]⟩ }

/-- C4 counterexample: evaluating a `Call` whose callee is a null pointer
(no block id) aborts with an `expect` panic, not with the `Misc`
interpreter error the claim requires. -/
theorem C4_counterexample_call_null_panics :
    stateNull.interp_instruction
        (.call (.register (.temp 0 0) (.pointer .unit)) [] .unit)
      = .error (.panic ("pointer for global variable must have bid value"))
    ∧ stateNull.interp_instruction
        (.call (.register (.temp 0 0) (.pointer .unit)) [] .unit)
      ≠ .error (.error (.misc "main" ⟨0, 1⟩
          ("Accessing memory with constant pointer"))) := by
  have h : stateNull.interp_instruction
      (.call (.register (.temp 0 0) (.pointer .unit)) [] .unit)
    = .error (.panic ("pointer for global variable must have bid value")) := rfl
  refine ⟨h, ?_⟩
  rw [h]
  simp

/-- C4 amended: dereferencing a pointer Value with no block id via `Load`
or `Store` fails with the `Misc` interpreter error; `Call`-callee
resolution on such a pointer instead aborts with an `expect` panic. -/
theorem C4_null_pointer_misc (s : State) (ptrOp valOp : Operand)
    (dt rt : Dtype) (off : Nat) (v : Value) (args : List Operand)
    (hp : s.interp_operand ptrOp = .ok (.pointer none off))
    (hv : s.interp_operand valOp = .ok v) :
    s.interp_instruction (.load ptrOp dt)
        = .error (.error (.misc s.stack_frame.func_name s.stack_frame.pc
            ("Accessing memory with constant pointer")))
    ∧ s.interp_instruction (.store ptrOp valOp)
        = .error (.error (.misc s.stack_frame.func_name s.stack_frame.pc
            ("Accessing memory with constant pointer")))
    ∧ s.interp_instruction (.call ptrOp args rt)
        = .error (.panic ("pointer for global variable must have bid value")) := by
  refine ⟨?_, ?_, ?_⟩ <;>
    simp [State.interp_instruction, hp, hv, State.interp_ptr,
      Value.get_pointer, expect, bind, Except.bind]

/-- C4 witness: the amended claim at the concrete null-pointer state. -/
theorem C4_null_pointer_misc_witness :
    stateNull.interp_instruction
        (.load (.register (.temp 0 0) (.pointer .unit)) .unit)
      = .error (.error (.misc "main" ⟨0, 1⟩
          ("Accessing memory with constant pointer"))) :=
  (C4_null_pointer_misc stateNull (.register (.temp 0 0) (.pointer .unit))
    (.constant (.int 3 8 false)) .unit .unit 0 (.int 3 8 false) [] rfl rfl).1

/-- The jump target of the C3 scenario: one phinode, no instructions. -/
def phiBlock : Block := ⟨[.int 32 true], [], .ret (.constant .unit)⟩

/-- A function whose entry block jumps to `phiBlock` with one argument of
matching count and dtype. -/
def funcJump : FunctionDefinition :=
  ⟨[], [(0, ⟨[], [], .jump ⟨1, [.constant (.int 5 32 true)]⟩⟩),
        (1, phiBlock)], 0⟩

/-- Concrete state at the entry of `funcJump`. -/
def stateJump : State :=
  { global_map := GlobalMap.empty,
    stack_frame := ⟨⟨0, 0⟩, RegisterMap.empty, "main", funcJump⟩,
    stack := [],
    memory := ⟨[]⟩,
    ir := ⟨[]⟩ }

/-- C3: at a Jump whose argument count equals the target's phinode count
and whose argument dtype is compatible (both shown below), the code does
not bind the argument and transfer control: because the target's argument
register was never previously assigned, `HashMap::insert` returns `None`
and the `.unwrap()` in `interp_jump` panics.  The panic also surfaces
through `step`. -/
theorem C3_first_jump_panics :
    ((⟨1, [.constant (.int 5 32 true)]⟩ : JumpArg).args.length
        = phiBlock.phinodes.length
      ∧ ((⟨1, [.constant (.int 5 32 true)]⟩ : JumpArg).args.zip
          phiBlock.phinodes).all (fun p => Dtype.is_compatible p.1.dtype p.2)
        = true)
    ∧ stateJump.interp_jump ⟨1, [.constant (.int 5 32 true)]⟩
        = .error (.panic ("called `Option::unwrap()` on a `None` value"))
    ∧ stateJump.step
        = .error (.panic ("called `Option::unwrap()` on a `None` value")) := by
  exact ⟨⟨rfl, rfl⟩, rfl, rfl⟩

/-- The case scan skips every leading case whose constant evaluates to a
value different from the scrutinee. -/
theorem switchCase_skip (s : State) (v : Value)
    (pre rest : List (Constant × JumpArg)) (dflt : JumpArg)
    (hpre : ∀ p ∈ pre, ∃ cv, s.interp_constant p.1 = .ok cv ∧ cv ≠ v) :
    s.switchCase v (pre ++ rest) dflt = s.switchCase v rest dflt := by
  induction pre with
  | nil => rfl
  | cons p ps ih =>
    obtain ⟨c, arg⟩ := p
    obtain ⟨cv, hcv, hne⟩ := hpre (c, arg) (by simp)
    rw [List.cons_append]
    have hstep : s.switchCase v ((c, arg) :: (ps ++ rest)) dflt
        = s.switchCase v (ps ++ rest) dflt := by
      simp only [State.switchCase]
      rw [hcv]
      simp only [bind, Except.bind]
      rw [if_neg (fun h => hne h.symm)]
    rw [hstep]
    exact ih (fun q hq => hpre q (List.mem_cons_of_mem _ hq))

/-- C8: a `Switch` compares the evaluated scrutinee against the case
constants in order and jumps to the target of the first case whose
evaluated constant equals the scrutinee (structural, width-aware Value
equality); with no matching case it jumps to the default target; and a
jump whose target block has no phinodes transfers control to that block at
instruction index 0. -/
theorem C8_switch_first_match (s : State) (valueOp : Operand)
    (dflt : JumpArg) (cases : List (Constant × JumpArg)) (v : Value)
    (hv : s.interp_operand valueOp = .ok v) :
    (∀ pre c arg post, cases = pre ++ (c, arg) :: post →
        (∀ p ∈ pre, ∃ cv, s.interp_constant p.1 = .ok cv ∧ cv ≠ v) →
        s.interp_constant c = .ok v →
        s.interp_block_exit (.switch valueOp dflt cases) = s.interp_jump arg)
    ∧ ((∀ p ∈ cases, ∃ cv, s.interp_constant p.1 = .ok cv ∧ cv ≠ v) →
        s.interp_block_exit (.switch valueOp dflt cases) = s.interp_jump dflt)
    ∧ (∀ arg blk, s.stack_frame.func_def.lookupBlock arg.bid = some blk →
        blk.phinodes = [] → arg.args = [] →
        s.interp_jump arg = .ok (none, { s with stack_frame :=
          { s.stack_frame with pc := Pc.new arg.bid } })) := by
  refine ⟨?_, ?_, ?_⟩
  · intro pre c arg post hcases hpre hc
    subst hcases
    simp only [State.interp_block_exit]
    rw [hv]
    simp only [bind, Except.bind]
    rw [switchCase_skip s v pre _ dflt hpre]
    simp only [State.switchCase]
    rw [hc]
    simp only [bind, Except.bind]
    simp
  · intro hall
    simp only [State.interp_block_exit]
    rw [hv]
    simp only [bind, Except.bind]
    have : s.switchCase v cases dflt = s.switchCase v [] dflt := by
      have := switchCase_skip s v cases [] dflt hall
      simpa using this
    rw [this]
    simp [State.switchCase]
  · intro arg blk hblk hphi hargs
    simp only [State.interp_jump]
    rw [hblk]
    simp only [expect, bind, Except.bind]
    rw [hphi, hargs]
    simp [State.bindJumpArgs]

/-- The switch scenario: block 9 switches on the constant 2 over cases
1 ↦ block 10 and 2 ↦ block 11, with default block 12. -/
def funcSwitch : FunctionDefinition :=
  ⟨[], [(9, ⟨[], [], .switch (.constant (.int 2 32 true)) ⟨12, []⟩
            [(.int 1 32 true, ⟨10, []⟩), (.int 2 32 true, ⟨11, []⟩)]⟩),
        (10, ⟨[], [], .ret (.constant .unit)⟩),
        (11, ⟨[], [], .ret (.constant .unit)⟩),
        (12, ⟨[], [], .ret (.constant .unit)⟩)], 9⟩

/-- Concrete state at the switch of `funcSwitch`. -/
def stateSwitch : State :=
  { global_map := GlobalMap.empty,
    stack_frame := ⟨⟨9, 0⟩, RegisterMap.empty, "main", funcSwitch⟩,
    stack := [],
    memory := ⟨[]⟩,
    ir := ⟨[]⟩ }

/-- C8 witness: the scenario-D switch on value 2 transfers to block 11
(blockB), at instruction index 0. -/
theorem C8_switch_first_match_witness :
    stateSwitch.interp_block_exit (.switch (.constant (.int 2 32 true))
        ⟨12, []⟩ [(.int 1 32 true, ⟨10, []⟩), (.int 2 32 true, ⟨11, []⟩)])
      = .ok (none, { stateSwitch with stack_frame :=
          { stateSwitch.stack_frame with pc := Pc.new 11 } }) := by
  have h := C8_switch_first_match stateSwitch (.constant (.int 2 32 true))
    ⟨12, []⟩ [(.int 1 32 true, ⟨10, []⟩), (.int 2 32 true, ⟨11, []⟩)]
    (.int 2 32 true) rfl
  have h1 := h.1 [(.int 1 32 true, ⟨10, []⟩)] (.int 2 32 true) ⟨11, []⟩ [] rfl
    (by
      intro p hp
      simp at hp
      subst hp
      exact ⟨.int 1 32 true, rfl, by decide⟩) rfl
  have h3 := h.2.2 ⟨11, []⟩ ⟨[], [], .ret (.constant .unit)⟩ rfl rfl rfl
  rw [h1, h3]

/-- Binding the callee arguments never touches the suspended-frame stack. -/
theorem write_args_stack (s : State) (b : BlockId) (args : List Value) :
    (s.write_args b args).stack = s.stack := rfl

/-- The local-allocation loop never touches the suspended-frame stack. -/
theorem allocLocalsAux_stack (l : List Dtype) :
    ∀ (s : State) (i : Nat), (allocLocalsAux s l i).stack = s.stack := by
  induction l with
  | nil => intro s i; rfl
  | cons d rest ih =>
    intro s i
    rw [allocLocalsAux]
    exact ih _ _

/-- `alloc_local_variables` never touches the suspended-frame stack. -/
theorem alloc_local_variables_stack (s : State) :
    s.alloc_local_variables.stack = s.stack :=
  allocLocalsAux_stack _ s 0

/-- C2: executing a `Call` instruction pushes the caller's frame — with its
program counter still at the call position and its registers untouched —
onto the suspended-frame stack; and whenever a `Return` is evaluated with
that frame on top of the stack, the restored frame has its program counter
advanced by exactly one from the call position, the returned value bound to
the fresh temp register keyed by the call position, and every other
register unchanged from immediately before the call. -/
theorem C2_call_return (s : State) (callee : Operand) (args : List Operand)
    (rt : Dtype) (block : Block) (bid off : Nat) (name : String)
    (sig : FunctionSignature) (fdef : FunctionDefinition)
    (argVals : List Value)
    (h_blk : s.stack_frame.func_def.lookupBlock s.stack_frame.pc.bid
        = some block)
    (h_instr : block.instructions.get? s.stack_frame.pc.iid
        = some (.call callee args rt))
    (h_callee : s.interp_operand callee = .ok (.pointer (some bid) off))
    (h_name : s.global_map.get_var bid = some name)
    (h_decl : s.ir.lookupDecl name = some (.function sig (some fdef)))
    (h_args : s.interp_args sig args = .ok argVals) :
    (∃ sA, s.step = .ok (none, sA) ∧ sA.stack = s.stack_frame :: s.stack)
    ∧ (∀ (s2 : State) (blk2 : Block) (retOp : Operand) (v : Value)
          (rest : List StackFrame),
        s2.stack = s.stack_frame :: rest →
        s2.stack_frame.func_def.lookupBlock s2.stack_frame.pc.bid
            = some blk2 →
        blk2.instructions.get? s2.stack_frame.pc.iid = none →
        blk2.exit = .ret retOp →
        s2.interp_operand retOp = .ok v →
        ∃ s3, s2.step = .ok (none, s3)
          ∧ s3.stack_frame.pc = s.stack_frame.pc.increment
          ∧ s3.stack_frame.registers.read
              (.temp s.stack_frame.pc.bid s.stack_frame.pc.iid) = some v
          ∧ (∀ rid, rid ≠ RegisterId.temp s.stack_frame.pc.bid
                s.stack_frame.pc.iid →
              s3.stack_frame.registers.read rid
                = s.stack_frame.registers.read rid)
          ∧ s3.stack = rest) := by
  constructor
  · refine ⟨(State.write_args
        { s with stack_frame := StackFrame.new fdef.bid_init name fdef,
                 stack := s.stack_frame :: s.stack }
        fdef.bid_init argVals).alloc_local_variables, ?_, ?_⟩
    · simp only [State.step]
      rw [h_blk]
      simp only [expect, bind, Except.bind]
      rw [h_instr]
      simp only [State.interp_instruction]
      rw [h_callee]
      simp only [bind, Except.bind, Value.get_pointer, expect]
      rw [h_name]
      simp only [bind, Except.bind, expect]
      rw [h_decl]
      simp only [bind, Except.bind, expect, Declaration.get_function]
      rw [h_args]
    · rw [alloc_local_variables_stack, write_args_stack]
  · intro s2 blk2 retOp v rest h_stack h2_blk h2_none h2_exit h2_val
    refine ⟨{ s2 with
        stack_frame := { s.stack_frame with
          registers := s.stack_frame.registers.write
            (.temp s.stack_frame.pc.bid s.stack_frame.pc.iid) v,
          pc := s.stack_frame.pc.increment },
        stack := rest }, ?_, ?_, ?_, ?_, ?_⟩
    · simp only [State.step]
      rw [h2_blk]
      simp only [expect, bind, Except.bind]
      rw [h2_none, h2_exit]
      simp only [State.interp_block_exit]
      rw [h2_val]
      simp only [bind, Except.bind]
      rw [h_stack]
    · rfl
    · simp [RegisterMap.read, RegisterMap.write]
    · intro rid hrid
      simp [RegisterMap.read, RegisterMap.write, hrid]
    · rfl

/-- Body of the callee `f`: a single block returning the constant 42. -/
def funcF : FunctionDefinition :=
  ⟨[], [(0, ⟨[], [], .ret (.constant (.int 42 32 true))⟩)], 0⟩

/-- Body of `main`: block 0 calls `f` with no arguments, then returns. -/
def funcMain : FunctionDefinition :=
  ⟨[], [(0, ⟨[],
      [.call (.constant (.global_variable "f" (.function (.int 32 true) [])))
        [] (.int 32 true)],
      .ret (.constant .unit)⟩)], 0⟩

/-- The two-function program of the call/return scenario. -/
def irCall : TranslationUnit :=
  ⟨[("main", .function ⟨.int 32 true, []⟩ (some funcMain)),
    ("f", .function ⟨.int 32 true, []⟩ (some funcF))]⟩

/-- Global map of `irCall`: main maps to bid 0, f to bid 1. -/
def gmCall : GlobalMap :=
  ⟨fun v => if v = "main" then some 0 else if v = "f" then some 1 else none,
   fun b => if b = 0 then some "main" else if b = 1 then some "f" else none⟩

/-- Caller state: `main` about to execute the call at pc (0,0). -/
def stateCall : State :=
  { global_map := gmCall,
    stack_frame := ⟨⟨0, 0⟩, RegisterMap.empty, "main", funcMain⟩,
    stack := [],
    memory := ⟨[[], []]⟩,
    ir := irCall }

/-- Callee state: `f` at its block exit, with the caller frame suspended. -/
def stateRet : State :=
  { global_map := gmCall,
    stack_frame := ⟨⟨0, 0⟩, RegisterMap.empty, "f", funcF⟩,
    stack := [stateCall.stack_frame],
    memory := ⟨[[], []]⟩,
    ir := irCall }

/-- C2 witness: in the concrete program, the call pushes the caller frame,
and the matching return restores it with pc (0,1) and the value 42 bound in
the temp register at the call position. -/
theorem C2_call_return_witness :
    (∃ sA, stateCall.step = .ok (none, sA)
        ∧ sA.stack = stateCall.stack_frame :: stateCall.stack)
    ∧ (∃ s3, stateRet.step = .ok (none, s3)
        ∧ s3.stack_frame.pc = Pc.mk 0 1
        ∧ s3.stack_frame.registers.read (.temp 0 0) = some (.int 42 32 true)
        ∧ s3.stack = []) := by
  have h := C2_call_return stateCall
    (.constant (.global_variable "f" (.function (.int 32 true) []))) []
    (.int 32 true)
    ⟨[],
      [.call (.constant (.global_variable "f" (.function (.int 32 true) [])))
        [] (.int 32 true)],
      .ret (.constant .unit)⟩
    1 0 "f" ⟨.int 32 true, []⟩ funcF []
    rfl rfl rfl rfl rfl rfl
  refine ⟨h.1, ?_⟩
  obtain ⟨s3, hstep, hpc, hread, hother, hstack⟩ := h.2 stateRet
    ⟨[], [], .ret (.constant (.int 42 32 true))⟩
    (.constant (.int 42 32 true)) (.int 42 32 true) [] rfl rfl rfl rfl rfl
  exact ⟨s3, hstep, hpc, hread, hstack⟩

/-- C9: State construction fails with `NoMainFunction` when no `main`
declaration exists or `main` is not a function, and with
`NoFunctionDefinition "main"` when `main` is a bodiless function
declaration; in each case `State::new` returns the error directly, so no
execution step runs. -/
theorem C9_main_resolution (ir : TranslationUnit) (args : List Value) :
    (ir.lookupDecl "main" = none →
        State.new ir args = .error (.error .noMainFunction))
    ∧ (∀ dt ini, ir.lookupDecl "main" = some (.var dt ini) →
        State.new ir args = .error (.error .noMainFunction))
    ∧ (∀ sig, ir.lookupDecl "main" = some (.function sig none) →
        State.new ir args = .error (.error (.noFunctionDefinition "main"))) := by
  refine ⟨?_, ?_, ?_⟩
  · intro h
    simp only [State.new]
    rw [h]
    rfl
  · intro dt ini h
    simp only [State.new]
    rw [h]
    rfl
  · intro sig h
    simp only [State.new]
    rw [h]
    rfl

/-- Program with no declarations at all. -/
def irEmpty : TranslationUnit := ⟨[]⟩

/-- Program where `main` is a global variable, not a function. -/
def irMainVar : TranslationUnit := ⟨[("main", .var (.int 32 true) none)]⟩

/-- Program where `main` is declared as a function but has no body. -/
def irMainNoBody : TranslationUnit :=
  ⟨[("main", .function ⟨.int 32 true, []⟩ none)]⟩

/-- C9 witness: the three concrete failure programs. -/
theorem C9_main_resolution_witness :
    State.new irEmpty [] = .error (.error .noMainFunction)
    ∧ State.new irMainVar [] = .error (.error .noMainFunction)
    ∧ State.new irMainNoBody []
        = .error (.error (.noFunctionDefinition "main")) :=
  ⟨(C9_main_resolution irEmpty []).1 rfl,
   (C9_main_resolution irMainVar []).2.1 (.int 32 true) none rfl,
   (C9_main_resolution irMainNoBody []).2.2 ⟨.int 32 true, []⟩ rfl⟩

/-- The global-allocation loop never touches the current stack frame. -/
theorem allocGlobalsAux_stack_frame (ds : List (String × Declaration)) :
    ∀ (s st : State), allocGlobalsAux s ds = .ok st →
      st.stack_frame = s.stack_frame := by
  induction ds with
  | nil =>
    intro s st h
    simp only [allocGlobalsAux] at h
    injection h with h
    rw [← h]
  | cons d rest ih =>
    intro s st h
    obtain ⟨name, decl⟩ := d
    simp only [allocGlobalsAux, bind, Except.bind] at h
    repeat' split at h
    all_goals first
      | exact Except.noConfusion h
      | exact (ih _ _ h).trans rfl

/-- Reading an argument register with index below the write start is
unchanged by the argument-binding loop. -/
theorem writeArgsAux_lt (b : BlockId) (vs : List Value) :
    ∀ (regs : RegisterMap) (k j : Nat), j < k →
      writeArgsAux regs b vs k (.arg b j) = regs (.arg b j) := by
  induction vs with
  | nil => intro regs k j hj; rfl
  | cons v rest ih =>
    intro regs k j hj
    rw [writeArgsAux]
    rw [ih _ (k + 1) j (Nat.lt_succ_of_lt hj)]
    simp only [RegisterMap.write, RegisterId.arg.injEq]
    rw [if_neg]
    omega

/-- Positional binding: after the argument-binding loop starting at index
`k`, the register for index `k + i` holds the i-th supplied value. -/
theorem writeArgsAux_get (b : BlockId) (vs : List Value) :
    ∀ (regs : RegisterMap) (k i : Nat) (v : Value), vs.get? i = some v →
      writeArgsAux regs b vs k (.arg b (k + i)) = some v := by
  induction vs with
  | nil => intro regs k i v h; simp at h
  | cons w rest ih =>
    intro regs k i v h
    cases i with
    | zero =>
      rw [List.get?_cons_zero] at h
      injection h with h
      subst h
      rw [writeArgsAux]
      simp only [Nat.add_zero]
      rw [writeArgsAux_lt b rest _ (k + 1) k (Nat.lt_succ_self k)]
      simp [RegisterMap.write]
    | succ i =>
      rw [List.get?_cons_succ] at h
      rw [writeArgsAux]
      rw [show k + (i + 1) = (k + 1) + i by omega]
      exact ih _ (k + 1) i v h

/-- The local-allocation loop only writes local-slot registers, so reads of
argument registers are unchanged. -/
theorem allocLocalsAux_registers_arg (l : List Dtype) :
    ∀ (s : State) (i : Nat) (b : BlockId) (j : Nat),
      (allocLocalsAux s l i).stack_frame.registers (.arg b j)
        = s.stack_frame.registers (.arg b j) := by
  induction l with
  | nil => intro s i b j; rfl
  | cons d rest ih =>
    intro s i b j
    rw [allocLocalsAux]
    rw [ih]
    simp [RegisterMap.write]

/-- The shape of `State::new` once `main` resolves to a defined function:
allocate globals, then bind the arguments and allocate locals. -/
theorem State.new_shape (ir : TranslationUnit) (a : List Value)
    (sig : FunctionSignature) (fdef : FunctionDefinition)
    (h : ir.lookupDecl "main" = some (.function sig (some fdef))) :
    State.new ir a =
      match State.alloc_global_variables
          { global_map := GlobalMap.empty,
            stack_frame := StackFrame.new fdef.bid_init "main" fdef,
            stack := [], memory := ⟨[]⟩, ir := ir } with
      | .error e => .error e
      | .ok st =>
          .ok ((st.write_args fdef.bid_init a).alloc_local_variables) := by
  simp only [State.new, h, Declaration.get_function, bind, Except.bind]
  cases State.alloc_global_variables
      { global_map := GlobalMap.empty,
        stack_frame := StackFrame.new fdef.bid_init "main" fdef,
        stack := [], memory := ⟨[]⟩, ir := ir } <;> rfl

/-- C10: the initial argument Values are written positionally into `main`'s
entry-block argument registers with no validation of count or dtypes:
whether `State::new` succeeds is independent of the argument list, each
supplied argument is bound at its positional index, whereas `interp_args`
(the validation used by the `Call` instruction) panics whenever the
argument count differs from the parameter count. -/
theorem C10_entry_args_unvalidated (ir : TranslationUnit)
    (args args2 : List Value) :
    ((∃ s, State.new ir args = .ok s) ↔ (∃ s, State.new ir args2 = .ok s))
    ∧ (∀ sig fdef s i v,
        ir.lookupDecl "main" = some (.function sig (some fdef)) →
        State.new ir args = .ok s →
        args.get? i = some v →
        s.stack_frame.registers.read (.arg fdef.bid_init i) = some v)
    ∧ (∀ (s : State) (sig : FunctionSignature) (opArgs : List Operand),
        opArgs.length ≠ sig.params.length →
        s.interp_args sig opArgs
          = .error (.panic ("dtype of args and params must be compatible"))) := by
  refine ⟨?_, ?_, ?_⟩
  · have key : ∀ (a b : List Value), (∃ s, State.new ir a = .ok s) →
        (∃ s, State.new ir b = .ok s) := by
      intro a b h
      obtain ⟨s, hs⟩ := h
      cases hd : ir.lookupDecl "main" with
      | none =>
        simp only [State.new, hd, bind, Except.bind] at hs
        exact Except.noConfusion hs
      | some decl =>
        cases decl with
        | var dt ini =>
          simp only [State.new, hd, Declaration.get_function, bind,
            Except.bind] at hs
          exact Except.noConfusion hs
        | function sig fd =>
          cases fd with
          | none =>
            simp only [State.new, hd, Declaration.get_function, bind,
              Except.bind] at hs
            exact Except.noConfusion hs
          | some fdef =>
            rw [State.new_shape ir a sig fdef hd] at hs
            rw [State.new_shape ir b sig fdef hd]
            cases hg : State.alloc_global_variables
                { global_map := GlobalMap.empty,
                  stack_frame := StackFrame.new fdef.bid_init "main" fdef,
                  stack := [], memory := ⟨[]⟩, ir := ir } with
            | error e =>
              rw [hg] at hs
              exact Except.noConfusion hs
            | ok st => exact ⟨_, rfl⟩
    exact ⟨key args args2, key args2 args⟩
  · intro sig fdef s i v hmain hnew hget
    rw [State.new_shape ir args sig fdef hmain] at hnew
    cases hg : State.alloc_global_variables
        { global_map := GlobalMap.empty,
          stack_frame := StackFrame.new fdef.bid_init "main" fdef,
          stack := [], memory := ⟨[]⟩, ir := ir } with
    | error e =>
      rw [hg] at hnew
      exact Except.noConfusion hnew
    | ok st =>
      rw [hg] at hnew
      injection hnew with hnew
      subst hnew
      simp only [RegisterMap.read, State.alloc_local_variables]
      rw [allocLocalsAux_registers_arg]
      simp only [State.write_args]
      have hw := writeArgsAux_get fdef.bid_init args
        st.stack_frame.registers 0 i v hget
      simpa using hw
  · intro s sig opArgs hlen
    have hb : (opArgs.length == sig.params.length) = false :=
      beq_eq_false_iff_ne.mpr hlen
    simp [State.interp_args, hb]

/-- Program whose `main` takes no parameters and has the trivial body. -/
def irMainOnly : TranslationUnit :=
  ⟨[("main", .function ⟨.unit, []⟩ (some trivialDef))]⟩

/-- Two arguments of arbitrary dtypes for a zero-parameter `main`. -/
def junkArgs : List Value := [.unit, .int 7 8 false]

/-- The state `State::new` produces on `irMainOnly` with `junkArgs` (the
fallback branch is unreachable: construction succeeds). -/
def stateEntry : State :=
  match State.new irMainOnly junkArgs with
  | .ok s => s
  | _ => stateNull

/-- C10 witness: the oversized, wrongly-typed argument list is accepted,
bound positionally, and the Call-side validation would panic on the same
count mismatch. -/
theorem C10_entry_args_unvalidated_witness :
    ((∃ s, State.new irMainOnly junkArgs = .ok s)
      ↔ (∃ s, State.new irMainOnly [] = .ok s))
    ∧ State.new irMainOnly junkArgs = .ok stateEntry
    ∧ stateEntry.stack_frame.registers.read (.arg 0 1) = some (.int 7 8 false)
    ∧ stateEntry.interp_args ⟨.unit, []⟩
        [.constant (.int 7 8 false), .constant .unit]
      = .error (.panic ("dtype of args and params must be compatible")) := by
  have h := C10_entry_args_unvalidated irMainOnly junkArgs []
  refine ⟨h.1, rfl, ?_, ?_⟩
  · exact h.2.1 ⟨.unit, []⟩ trivialDef stateEntry 1 (.int 7 8 false)
      rfl rfl rfl
  · exact h.2.2 stateEntry ⟨.unit, []⟩
      [.constant (.int 7 8 false), .constant .unit] (by decide)
